import Mathlib

/-!
Shallow embedding of the session-synchronization core of the beat-battle
listening-party app: the session store (zustand) actions, the skip-vote
quorum check, the playback clock, and the host start/advance flow, together
with proofs about them.  Definitions are translated from the TypeScript
source; line references point into the repository files.
-/

namespace BeatBattle

/-- Row identifiers: UUID strings in the database schema. -/
abbrev Uid := String

/-- Lifecycle status of a session: CHECK (status IN ('waiting', 'playing', 'finished')). -/
inductive SessionStatus where
  | waiting
  | playing
  | finished
deriving DecidableEq, Repr

/-- A row of the `sessions` table (columns used by the session store;
`infinite_mode` / `min_queue_size` were added by the infinite-mode migration). -/
structure Session where
  id : Uid
  name : String
  host_id : Uid
  session_code : String
  status : SessionStatus
  current_song_index : Option Nat
  current_song_started_at : Option Int
  last_activity_at : Int
  infinite_mode : Bool
  min_queue_size : Nat
deriving DecidableEq, Repr

/-- A row of the `participants` table. -/
structure Participant where
  id : Uid
  session_id : Uid
  user_name : String
  is_host : Bool
  karma : Int
deriving DecidableEq, Repr

/-- A row of the `songs` table.  `duration` is in seconds; `source_id` is the
YouTube video id used for duplicate detection; `position` defines queue order. -/
structure Song where
  id : Uid
  session_id : Uid
  title : String
  artist : String
  album_art : String
  duration : Nat
  source : String
  source_id : Uid
  added_by : Uid
  position : Nat
deriving DecidableEq, Repr

/-- A row of the `scores` table; UNIQUE(song_id, participant_id). -/
structure Score where
  id : Uid
  session_id : Uid
  song_id : Uid
  participant_id : Uid
  rating : Nat
deriving DecidableEq, Repr

/-- A row of the `skip_votes` table; UNIQUE(session_id, song_id, participant_id). -/
structure SkipVote where
  id : Uid
  session_id : Uid
  song_id : Uid
  participant_id : Uid
deriving DecidableEq, Repr

/-- A `karma_history` row as inserted by `awardKarma`. -/
structure KarmaEntry where
  participant_id : Uid
  session_id : Uid
  amount : Int
  reason : String
deriving DecidableEq, Repr

/-- The record store (Supabase tables relevant to the session core). -/
structure DB where
  sessions : List Session
  participants : List Participant
  songs : List Song
  scores : List Score
  skip_votes : List SkipVote
  karma_history : List KarmaEntry
deriving DecidableEq, Repr

/-- Errors surfaced by the record store; `uniqueViolation` is Postgres error
code 23505 (duplicate key). -/
inductive DbError where
  | uniqueViolation
  | notFound
deriving DecidableEq, Repr

/-- Query `sessions` by id (`.eq('id', sessionId).single()`). -/
def DB.findSession (db : DB) (sessionId : Uid) : Option Session :=
  db.sessions.find? (fun s => s.id == sessionId)

/-- Query `skip_votes` by session id (`.eq('session_id', sessionId)`). -/
def DB.skipVotesOfSession (db : DB) (sessionId : Uid) : List SkipVote :=
  db.skip_votes.filter (fun v => v.session_id == sessionId)

/-- Query `songs` by session id ordered by position
(`.eq('session_id', sessionId).order('position')`). -/
def DB.songsOfSession (db : DB) (sessionId : Uid) : List Song :=
  (db.songs.filter (fun s => s.session_id == sessionId)).mergeSort
    (fun a b => a.position ≤ b.position)

/-- Query `participants` by session id ordered by join time; join order is
the row order of the table in this model. -/
def DB.participantsOfSession (db : DB) (sessionId : Uid) : List Participant :=
  db.participants.filter (fun p => p.session_id == sessionId)

/-- Query `scores` by session id. -/
def DB.scoresOfSession (db : DB) (sessionId : Uid) : List Score :=
  db.scores.filter (fun s => s.session_id == sessionId)

/-- Insert into `scores`; the store enforces UNIQUE(song_id, participant_id),
so a second row for the same pair fails with a duplicate-key error. -/
def DB.insertScore (db : DB) (s : Score) : Except DbError DB :=
  if db.scores.any (fun r => r.song_id == s.song_id && r.participant_id == s.participant_id) then
    .error .uniqueViolation
  else
    .ok { db with scores := db.scores ++ [s] }

/-- Insert into `skip_votes`; the store enforces
UNIQUE(session_id, song_id, participant_id). -/
def DB.insertSkipVote (db : DB) (v : SkipVote) : Except DbError DB :=
  if db.skip_votes.any (fun r =>
      r.session_id == v.session_id && r.song_id == v.song_id &&
      r.participant_id == v.participant_id) then
    .error .uniqueViolation
  else
    .ok { db with skip_votes := db.skip_votes ++ [v] }

/-- Number of `scores` rows for a (song, participant) key. -/
def DB.scoreKeyCount (db : DB) (songId participantId : Uid) : Nat :=
  (db.scores.filter (fun r => r.song_id == songId && r.participant_id == participantId)).length

/-- Number of `skip_votes` rows for a (session, song, participant) key. -/
def DB.skipVoteKeyCount (db : DB) (sessionId songId participantId : Uid) : Nat :=
  (db.skip_votes.filter (fun r =>
    r.session_id == sessionId && r.song_id == songId &&
    r.participant_id == participantId)).length

/-- The client-side session store state (zustand store in the session store
module): local copies of the rows plus the current participant and whether a
realtime connection object is present. -/
structure LocalState where
  session : Option Session
  participants : List Participant
  songs : List Song
  scores : List Score
  skipVotes : List SkipVote
  currentParticipant : Option Participant
  realtime : Bool
deriving DecidableEq, Repr

/-- Ephemeral broadcast messages published by the store actions. -/
inductive BroadcastMsg where
  | session_started (session_id host_id first_song_id : Uid)
  | session_ended (session_id host_id : Uid)
  | song_changed (session_id song_id : Uid) (song_index : Nat) (started_at : Int)
      (host_id : Uid)
  | song_added (song_id : Uid)
  | score_added (score_id song_id participant_id : Uid) (rating : Nat)
  | skip_vote_added (skip_vote_id song_id participant_id : Uid)
deriving DecidableEq, Repr

/-- A partial update object passed to the store's `updateSession` action;
`none` means the field is absent from the patch (JS `undefined`). -/
structure SessionUpdates where
  status : Option SessionStatus := none
  current_song_index : Option Nat := none
  current_song_started_at : Option Int := none
deriving DecidableEq, Repr

/-- Apply an update patch to a session row; every update also stamps
`last_activity_at` (the store adds it to every patch). -/
def applySessionUpdates (s : Session) (u : SessionUpdates) (now : Int) : Session :=
  { s with
    status := u.status.getD s.status
    current_song_index :=
      match u.current_song_index with
      | some i => some i
      | none => s.current_song_index
    current_song_started_at :=
      match u.current_song_started_at with
      | some t => some t
      | none => s.current_song_started_at
    last_activity_at := now }

/-- The store-side `update ... eq('id', ...) .select().single()` call:
patch the matching row and return it, or fail when no row matches. -/
def DB.updateSessionRow (db : DB) (sessionId : Uid) (u : SessionUpdates) (now : Int) :
    Except DbError (DB × Session) :=
  match db.findSession sessionId with
  | none => .error .notFound
  | some s =>
    let patched := applySessionUpdates s u now
    .ok ({ db with sessions :=
            db.sessions.map (fun r => if r.id == sessionId then patched else r) },
         patched)

/-- The store action `updateSession` (session store module): writes the patch to the
record store, mirrors the returned row into local state, and (when a realtime
connection exists) publishes `session_started` / `session_ended` /
`song_changed` broadcasts; the `finished` branch also reloads participants,
songs and scores from the store. -/
def updateSession (now : Int) (st : LocalState) (db : DB) (u : SessionUpdates) :
    Except DbError (LocalState × DB × List BroadcastMsg) :=
  match st.session with
  | none => .ok (st, db, [])
  | some session =>
    match db.updateSessionRow session.id u now with
    | .error e => .error e
    | .ok (db1, data) =>
      let st1 := { st with session := some data }
      if st.realtime then
        let bStart : List BroadcastMsg :=
          if u.status = some SessionStatus.playing ∧ session.status = SessionStatus.waiting then
            match st1.songs with
            | [] => []
            | firstSong :: _ => [.session_started session.id session.host_id firstSong.id]
          else []
        let stEnd : LocalState × List BroadcastMsg :=
          if u.status = some SessionStatus.finished then
            ({ st1 with
                participants := db1.participantsOfSession session.id
                songs := db1.songsOfSession session.id
                scores := db1.scoresOfSession session.id },
             [.session_ended session.id session.host_id])
          else (st1, [])
        let st2 := stEnd.1
        let bSong : List BroadcastMsg :=
          match u.current_song_index with
          | none => []
          | some idx =>
            match st2.songs[idx]? with
            | none => []
            | some currentSong =>
              [.song_changed session.id currentSong.id idx
                (u.current_song_started_at.getD now) session.host_id]
        .ok (st2, db1, bStart ++ stEnd.2 ++ bSong)
      else
        .ok (st1, db1, [])

/-- The store action `nextSong`: no-op when there is no local session or no
current index; otherwise increments the index, and at the end of the queue
sets the status to `finished`. -/
def nextSong (now : Int) (st : LocalState) (db : DB) :
    Except DbError (LocalState × DB × List BroadcastMsg) :=
  match st.session with
  | none => .ok (st, db, [])
  | some session =>
    match session.current_song_index with
    | none => .ok (st, db, [])
    | some idx =>
      let nextIndex := idx + 1
      if st.songs.length ≤ nextIndex then
        updateSession now st db { status := some SessionStatus.finished }
      else
        updateSession now st db
          { current_song_index := some nextIndex, current_song_started_at := some now }

/-- The store action `awardKarma`: insert a `karma_history` row, then bump the
participant's karma in the store and in local state; all of its errors are
caught internally, so in this model it always succeeds. -/
def awardKarma (st : LocalState) (db : DB) (participantId : Uid) (amount : Int)
    (reason : String) : LocalState × DB :=
  match st.session with
  | none => (st, db)
  | some session =>
    let db1 := { db with karma_history :=
      db.karma_history ++ [⟨participantId, session.id, amount, reason⟩] }
    match st.participants.find? (fun p => p.id == participantId) with
    | none => (st, db1)
    | some participant =>
      let newKarma := participant.karma + amount
      let bump := fun (p : Participant) =>
        if p.id == participantId then { p with karma := newKarma } else p
      ({ st with participants := st.participants.map bump },
       { db1 with participants := db1.participants.map bump })

/-- The store action `addScore`: insert the score row; a store error —
including the duplicate-key rejection — is rethrown to the caller.  On
success the row is appended to local state, karma is awarded, and the score
is broadcast when a realtime connection and current participant exist. -/
def addScore (st : LocalState) (db : DB) (score : Score) :
    Except DbError (LocalState × DB × List BroadcastMsg) :=
  match db.insertScore score with
  | .error e => .error e
  | .ok db1 =>
    let st1 := { st with scores := st.scores ++ [score] }
    let r2 := awardKarma st1 db1 score.participant_id 1 "Voted on a song"
    let r3 :=
      if 4 ≤ score.rating then
        match st.songs.find? (fun s => s.id == score.song_id) with
        | some song =>
          if song.added_by ≠ score.participant_id then
            awardKarma r2.1 r2.2 song.added_by (if score.rating = 5 then 3 else 2)
              "Song received a high rating"
          else r2
        | none => r2
      else r2
    let msgs : List BroadcastMsg :=
      if st.realtime ∧ st.currentParticipant.isSome then
        [.score_added score.id score.song_id score.participant_id score.rating]
      else []
    .ok (r3.1, r3.2, msgs)

/-- The store action `addSkipVote`.  The pre-check query runs against
`checkDb`, a possibly stale read of the store (two tabs can race); the insert
runs against the current store `db`.  A duplicate-key failure of the insert
(error code 23505) is swallowed and treated as a successful no-op. -/
def addSkipVote (checkDb : DB) (st : LocalState) (db : DB) (songId newId : Uid) :
    Except DbError (LocalState × DB × List BroadcastMsg) :=
  match st.session, st.currentParticipant with
  | some session, some currentParticipant =>
    let existingVotes := checkDb.skip_votes.filter (fun v =>
      v.session_id == session.id && v.song_id == songId &&
      v.participant_id == currentParticipant.id)
    if 0 < existingVotes.length then
      .ok (st, db, [])
    else
      let newVote : SkipVote := ⟨newId, session.id, songId, currentParticipant.id⟩
      match db.insertSkipVote newVote with
      | .error .uniqueViolation => .ok (st, db, [])
      | .error e => .error e
      | .ok db1 =>
        let st1 := { st with skipVotes := db1.skipVotesOfSession session.id }
        let msgs : List BroadcastMsg :=
          if st.realtime then [.skip_vote_added newId songId currentParticipant.id]
          else []
        .ok (st1, db1, msgs)
  | _, _ => .ok (st, db, [])

/-- Reload actions issued by a broadcast handler against the record store. -/
inductive ReloadAction where
  | reloadSession
  | reloadSkipVotes
deriving DecidableEq, Repr

/-- Payload of the ephemeral `song_changed` broadcast. -/
structure SongChangedEvent where
  session_id : Uid
  song_id : Uid
  song_index : Nat
  started_at : Int
  host_id : Uid
deriving DecidableEq, Repr

/-- The `song_changed` broadcast listener registered in `subscribeToSession`:
when the locally held `current_song_index` already equals the event's
`song_index` it returns without touching local state; otherwise it reloads
the session row and the skip votes from the record store. -/
def onSongChanged (st : LocalState) (db : DB) (sessionId : Uid) (data : SongChangedEvent) :
    LocalState × List ReloadAction :=
  let alreadyUpToDate : Bool :=
    match st.session with
    | some s => s.current_song_index == some data.song_index
    | none => false
  if alreadyUpToDate then (st, [])
  else
    match db.findSession sessionId with
    | some sessionData =>
      ({ st with session := some sessionData
                 skipVotes := db.skipVotesOfSession sessionId },
       [.reloadSession, .reloadSkipVotes])
    | none => (st, [.reloadSession])

/-- Skip-vote threshold from the skip-voting hook, line 43:
`Math.ceil(participants.length * 0.5)`; for a natural count the
IEEE computation is exact and equals `(n + 1) / 2` in natural division. -/
def skipThresholdNat (n : Nat) : Nat := (n + 1) / 2

/-- The votes counted for the current song (hook line 42):
`skipVotes.filter((v) => v.song_id === currentSong.id)`. -/
def songSkipVotes (skipVotes : List SkipVote) (songId : Uid) : List SkipVote :=
  skipVotes.filter (fun v => v.song_id == songId)

/-- The hook's auto-skip condition (line 45):
`songSkipVotes.length >= skipThreshold && songSkipVotes.length > 0`. -/
def thresholdReached (skipVotes : List SkipVote) (songId : Uid)
    (participants : List Participant) : Bool :=
  let votes := songSkipVotes skipVotes songId
  decide (skipThresholdNat participants.length ≤ votes.length) && decide (0 < votes.length)

/-- The playback clock of the YouTube player component
(`getExpectedPlaybackTime`): with a session start timestamp it is
`Math.max(0, Math.floor((now - startedAt) / 1000))`; timestamps in
milliseconds, result in seconds.  `Int.fdiv` is floor division, matching
`Math.floor` of the real quotient. -/
def getExpectedPlaybackTime (sessionStartedAt : Option Int) (startTime : Int) (now : Int) :
    Int :=
  match sessionStartedAt with
  | none => startTime
  | some startedAt => max 0 ((now - startedAt).fdiv 1000)

/-- Modelled from the spec: `expectedOffsetSeconds = max(0, floor((now() - startedAt) / 1000))`,
the floor taken over the rationals. -/
def specExpectedOffsetSeconds (now startedAt : Int) : Int :=
  max 0 ⌊((now : ℚ) - (startedAt : ℚ)) / 1000⌋

/-- Swap of two positions in a list: the array destructuring swap
`[a[i], a[j]] = [a[j], a[i]]` used by the Fisher–Yates loop. -/
def swapList (l : List α) (i j : Nat) : List α :=
  match l[i]?, l[j]? with
  | some x, some y => (l.set i y).set j x
  | _, _ => l

/-- The Fisher–Yates loop of the store's `shuffleQueue`, counting `i` down
from `length - 1` to `1`; `rand i` models `Math.floor(Math.random() * (i + 1))`. -/
def fisherYatesStep (rand : Nat → Nat) : Nat → List Song → List Song
  | 0, l => l
  | i + 1, l => fisherYatesStep rand i (swapList l (i + 1) (rand (i + 1)))

/-- The store's Fisher–Yates shuffle over a copy of the queue. -/
def fisherYates (rand : Nat → Nat) (l : List Song) : List Song :=
  fisherYatesStep rand (l.length - 1) l

/-- Update a single song's position in the store
(`.update({ position }).eq('id', id)`). -/
def setSongPosition (db : DB) (songId : Uid) (pos : Nat) : DB :=
  { db with songs := db.songs.map (fun r =>
      if r.id == songId then { r with position := pos } else r) }

/-- The store action `reorderSongs`: write `position := index` for every song
of the given ordering, then set the local queue to that ordering. -/
def reorderSongs (st : LocalState) (db : DB) (songs : List Song) : LocalState × DB :=
  let db1 := songs.enum.foldl (fun acc p => setSongPosition acc p.2.id p.1) db
  ({ st with songs := songs }, db1)

/-- The store action `shuffleQueue`: refuses to shuffle while the session is
playing; otherwise Fisher–Yates-shuffles the queue and reorders positions. -/
def shuffleQueue (rand : Nat → Nat) (st : LocalState) (db : DB) : LocalState × DB :=
  match st.session with
  | none => (st, db)
  | some session =>
    if session.status = SessionStatus.playing then (st, db)
    else reorderSongs st db (fisherYates rand st.songs)

/-- Whether the local participant is the host
(`currentParticipant?.is_host || false`). -/
def isHost (st : LocalState) : Bool :=
  (st.currentParticipant.map Participant.is_host).getD false

/-- The page-level `handleStartSession`: guarded by
`!session || !isHost || songs.length === 0`; shuffles the queue, then starts
the session at index 0 with a fresh start timestamp.  Errors of the inner
calls are caught and logged, so the function itself always completes. -/
def handleStartSession (now : Int) (rand : Nat → Nat) (st : LocalState) (db : DB) :
    LocalState × DB × List BroadcastMsg :=
  if st.session.isNone ∨ isHost st = false ∨ st.songs.length = 0 then (st, db, [])
  else
    let r1 := shuffleQueue rand st db
    match updateSession now r1.1 r1.2
        { status := some SessionStatus.playing
          current_song_index := some 0
          current_song_started_at := some now } with
    | .error _ => (r1.1, r1.2, [])
    | .ok r => r

/-- A search candidate returned by the song-search collaborator. -/
structure SearchResult where
  id : Uid
  title : String
  artist : String
  thumbnail : String
  duration : Nat
deriving DecidableEq, Repr

/-- Outcome of attempting to add a search candidate to the queue. -/
inductive AddSongOutcome where
  | rejectedTooLong
  | rejectedNoSession
  | rejectedNoParticipant
  | rejectedDuplicate
  | accepted (row : Song)
deriving DecidableEq, Repr

/-- The session page's `handleAddSong`: throws when no session or participant
is present or when a queued song already has the candidate's source id;
otherwise builds the song row (position = queue length) and inserts it. -/
def pageHandleAddSong (st : LocalState) (newId : Uid) (song : SearchResult) :
    AddSongOutcome :=
  match st.session with
  | none => .rejectedNoSession
  | some session =>
    match st.currentParticipant with
    | none => .rejectedNoParticipant
    | some currentParticipant =>
      if st.songs.any (fun s => s.source_id == song.id) then .rejectedDuplicate
      else
        .accepted
          { id := newId
            session_id := session.id
            title := song.title
            artist := song.artist
            album_art := song.thumbnail
            duration := song.duration
            source := "youtube"
            source_id := song.id
            added_by := currentParticipant.id
            position := st.songs.length }

/-- The add-song dialog's `handleAddSong`: rejects candidates longer than
`MAX_DURATION = 360` seconds before calling the page handler, and catches any
rejection the page handler throws (so a rejected candidate is never inserted). -/
def dialogHandleAddSong (st : LocalState) (newId : Uid) (song : SearchResult) :
    AddSongOutcome :=
  if 360 < song.duration then .rejectedTooLong
  else pageHandleAddSong st newId song

/-- Effect of an add-song outcome on the record store: only an accepted
candidate is inserted into the `songs` table. -/
def applyAddSongOutcome (db : DB) (o : AddSongOutcome) : DB :=
  match o with
  | .accepted row => { db with songs := db.songs ++ [row] }
  | _ => db

/-! ## Concrete fixtures used by counterexamples and witnesses -/

/-- Two participants of session s1 (host and guest). -/
def c1Participants : List Participant :=
  [⟨"p1", "s1", "Alice", true, 0⟩, ⟨"p2", "s1", "Bob", false, 0⟩]

/-- Three participants of session s1. -/
def w1Participants : List Participant :=
  [⟨"p1", "s1", "Alice", true, 0⟩, ⟨"p2", "s1", "Bob", false, 0⟩,
   ⟨"p3", "s1", "Cleo", false, 0⟩]

/-- A skip vote by p1 for song1. -/
def c1Vote : SkipVote := ⟨"v1", "s1", "song1", "p1"⟩

/-- A playing session fixture currently at song index 2. -/
def w4Session : Session :=
  ⟨"s1", "Party", "p1", "ABC123", .playing, some 2, some 1000, 1000, false, 3⟩

/-- Local state holding `w4Session`. -/
def w4St : LocalState := ⟨some w4Session, [], [], [], [], none, true⟩

/-- An empty record store fixture. -/
def w4Db : DB := ⟨[], [], [], [], [], []⟩

/-- A `song_changed` event for the index already held locally. -/
def w4Ev : SongChangedEvent := ⟨"s1", "songC", 2, 5000, "p1"⟩

/-- A 360-second (maximum-length) song fixture. -/
def c6Song : Song :=
  ⟨"song1", "s1", "Longest", "Band", "", 360, "youtube", "yt1", "p1", 0⟩

/-- Local state with no session. -/
def w10St : LocalState := ⟨none, [], [], [], [], none, false⟩

/-- An empty record store fixture for the C10 witness. -/
def w10Db : DB := ⟨[], [], [], [], [], []⟩

/-- An existing score by p1 on song1. -/
def c3Score1 : Score := ⟨"sc1", "s1", "song1", "p1", 4⟩

/-- A second score by the same participant for the same song. -/
def c3Score2 : Score := ⟨"sc2", "s1", "song1", "p1", 5⟩

/-- Record store already holding p1's score for song1. -/
def c3Db : DB := ⟨[], [], [], [c3Score1], [], []⟩

/-- Local state mirroring `c3Db`. -/
def c3St : LocalState := ⟨none, [], [], [c3Score1], [], none, false⟩

/-- A playing 1-song session with infinite mode enabled. -/
def c2Session : Session :=
  ⟨"s1", "Party", "p1", "ABC123", .playing, some 0, some 0, 0, true, 3⟩

/-- The single queued song of the infinite-mode session. -/
def c2Song : Song :=
  ⟨"song1", "s1", "Tune", "Band", "", 200, "youtube", "yt1", "p1", 0⟩

/-- Local state for the infinite-mode session at its last song. -/
def c2St : LocalState := ⟨some c2Session, [], [c2Song], [], [], none, false⟩

/-- Record store for the infinite-mode session. -/
def c2Db : DB := ⟨[c2Session], [], [c2Song], [], [], []⟩

/-- A playing session fixture for the skip-vote race. -/
def w7Session : Session :=
  ⟨"s1", "Party", "p1", "ABC123", .playing, some 0, some 0, 0, false, 3⟩

/-- The host participant fixture. -/
def w7P : Participant := ⟨"p1", "s1", "Alice", true, 0⟩

/-- The skip vote already persisted by the other tab. -/
def w7Vote : SkipVote := ⟨"v1", "s1", "song1", "p1"⟩

/-- Record store already holding the concurrent duplicate vote. -/
def w7Db : DB := ⟨[w7Session], [w7P], [], [], [w7Vote], []⟩

/-- A stale read of the store from before the concurrent insert. -/
def w7CheckDb : DB := ⟨[w7Session], [w7P], [], [], [], []⟩

/-- Local state of the tab casting the racing vote. -/
def w7St : LocalState := ⟨some w7Session, [w7P], [], [], [], some w7P, false⟩

/-- A waiting session fixture for the add-song path. -/
def w9Session : Session :=
  ⟨"s1", "Party", "p1", "ABC123", .waiting, none, none, 0, false, 3⟩

/-- The participant adding the song. -/
def w9P : Participant := ⟨"p1", "s1", "Alice", true, 0⟩

/-- Local state with an empty queue. -/
def w9St : LocalState := ⟨some w9Session, [w9P], [], [], [], some w9P, false⟩

/-- An acceptable 180-second search candidate. -/
def w9Cand : SearchResult := ⟨"yt9", "Title", "Artist", "thumb", 180⟩

/-- An empty record store fixture for the add-song path. -/
def w9Db : DB := ⟨[w9Session], [w9P], [], [], [], []⟩

/-- A waiting two-song session fixture for the start action. -/
def w8Session : Session :=
  ⟨"s8", "Party", "p1", "ZZZ111", .waiting, none, none, 0, false, 3⟩

/-- The host participant of the start-action fixture. -/
def w8P : Participant := ⟨"p1", "s8", "Alice", true, 0⟩

/-- Two queued songs for the start-action fixture. -/
def w8Songs : List Song :=
  [⟨"songA", "s8", "A", "Ar", "", 100, "youtube", "ytA", "p1", 0⟩,
   ⟨"songB", "s8", "B", "Br", "", 120, "youtube", "ytB", "p1", 1⟩]

/-- Local state of the host about to start the session. -/
def w8St : LocalState := ⟨some w8Session, [w8P], w8Songs, [], [], some w8P, false⟩

/-- Record store for the start-action fixture. -/
def w8Db : DB := ⟨[w8Session], [w8P], w8Songs, [], [], []⟩

/-! ## Helper lemmas: swapping two list positions is a permutation -/

theorem getElem_cons_set_perm (t : List α) (m : Nat) (hm : m < t.length) (a : α) :
    (t[m] :: t.set m a).Perm (a :: t) := by
  induction t generalizing m with
  | nil => simp at hm
  | cons b t' ih =>
    match m with
    | 0 => simpa using List.Perm.swap a b t'
    | Nat.succ k =>
      have hk : k < t'.length := by simp only [List.length_cons] at hm; omega
      simp only [List.getElem_cons_succ, List.set_cons_succ]
      have h1 : ((t'[k] :: b :: t'.set k a)).Perm (b :: t'[k] :: t'.set k a) :=
        List.Perm.swap _ _ _
      have h2 := (ih k hk).cons b
      have h3 : (b :: a :: t').Perm (a :: b :: t') := List.Perm.swap _ _ _
      exact h1.trans (h2.trans h3)

theorem set_set_getElem_perm (l : List α) (i j : Nat) (hi : i < l.length)
    (hj : j < l.length) : ((l.set i l[j]).set j l[i]).Perm l := by
  induction l generalizing i j with
  | nil => simp at hi
  | cons a t ih =>
    match i, j with
    | 0, 0 => simp
    | 0, Nat.succ k =>
      have hk : k < t.length := by simp only [List.length_cons] at hj; omega
      simp only [List.getElem_cons_zero, List.getElem_cons_succ, List.set_cons_zero,
        List.set_cons_succ]
      exact getElem_cons_set_perm t k hk a
    | Nat.succ m, 0 =>
      have hm : m < t.length := by simp only [List.length_cons] at hi; omega
      simp only [List.getElem_cons_zero, List.getElem_cons_succ, List.set_cons_succ,
        List.set_cons_zero]
      exact getElem_cons_set_perm t m hm a
    | Nat.succ m, Nat.succ k =>
      have hm : m < t.length := by simp only [List.length_cons] at hi; omega
      have hk : k < t.length := by simp only [List.length_cons] at hj; omega
      simp only [List.getElem_cons_succ, List.set_cons_succ]
      exact (ih m k hm hk).cons a

theorem swapList_perm (l : List α) (i j : Nat) : (swapList l i j).Perm l := by
  rw [swapList]
  split
  · next x y h1 h2 =>
    rw [List.getElem?_eq_some_iff] at h1 h2
    obtain ⟨hi, hx⟩ := h1
    obtain ⟨hj, hy⟩ := h2
    rw [← hx, ← hy]
    exact set_set_getElem_perm l i j hi hj
  · exact List.Perm.refl l

theorem fisherYatesStep_perm (rand : Nat → Nat) (k : Nat) (l : List Song) :
    (fisherYatesStep rand k l).Perm l := by
  induction k generalizing l with
  | zero => exact List.Perm.refl l
  | succ n ih =>
    simp only [fisherYatesStep]
    exact (ih _).trans (swapList_perm l (n + 1) (rand (n + 1)))

theorem fisherYates_perm (rand : Nat → Nat) (l : List Song) :
    (fisherYates rand l).Perm l :=
  fisherYatesStep_perm rand (l.length - 1) l

/-! ## Helper lemmas: arithmetic bridges -/

theorem fdiv_1000_eq_floor (a : Int) : a.fdiv 1000 = ⌊(a : ℚ) / 1000⌋ := by
  rw [Int.fdiv_eq_ediv a (by norm_num)]
  rw [show ((1000 : ℚ)) = ((1000 : ℕ) : ℚ) by norm_num]
  rw [Rat.floor_intCast_div_natCast]
  norm_num

theorem skipThresholdNat_eq_ceil (n : Nat) :
    ((skipThresholdNat n : Nat) : ℤ) = ⌈(n : ℚ) * (1/2)⌉ := by
  unfold skipThresholdNat
  obtain ⟨k, hk | hk⟩ := Nat.even_or_odd' n <;> subst hk
  · have h1 : ((2 * k + 1) / 2 : Nat) = k := by omega
    rw [h1]
    have h2 : ((2 * k : ℕ) : ℚ) * (1/2) = (k : ℚ) := by push_cast; ring
    rw [h2, Int.ceil_natCast]
  · have h1 : ((2 * k + 1 + 1) / 2 : Nat) = k + 1 := by omega
    rw [h1, eq_comm, Int.ceil_eq_iff]
    constructor <;> push_cast <;> linarith

/-! ## C1: skip-vote quorum threshold -/

/-- A single total skip vote keeps the filtered per-song vote list at length
at most one. -/
theorem songSkipVotes_single_le_one (v : SkipVote) (songId : Uid) :
    (songSkipVotes [v] songId).length ≤ 1 := by
  unfold songSkipVotes
  cases hb : (v.song_id == songId) <;> simp [List.filter_cons, hb]

/-- C1 counterexample: with 2 participants the threshold is
`ceil(2 * 0.5) = 1`, so a single skip vote does reach quorum, refuting
"a single skip vote never reaches quorum for any participant count N ≥ 1". -/
theorem single_vote_reaches_quorum_with_two_participants :
    c1Participants.length = 2 ∧ skipThresholdNat c1Participants.length = 1 ∧
    thresholdReached [c1Vote] "song1" c1Participants = true := by decide

/-- C1 (amended): the quorum threshold equals `ceil(N * 0.5)`; with N = 4 it
is 2, with N = 3 it is 2; and a single skip vote never reaches quorum for
N ≥ 3 (with N = 1 or N = 2 it does, since the threshold is 1). -/
theorem skip_quorum_threshold_amended :
    (∀ n : Nat, ((skipThresholdNat n : Nat) : ℤ) = ⌈(n : ℚ) * (1/2)⌉) ∧
    skipThresholdNat 4 = 2 ∧ skipThresholdNat 3 = 2 ∧
    (∀ (v : SkipVote) (songId : Uid) (ps : List Participant), 3 ≤ ps.length →
      thresholdReached [v] songId ps = false) := by
  refine ⟨skipThresholdNat_eq_ceil, rfl, rfl, ?_⟩
  intro v songId ps h
  have hlen := songSkipVotes_single_le_one v songId
  unfold thresholdReached
  simp only [Bool.and_eq_false_iff, decide_eq_false_iff_not]
  left
  unfold skipThresholdNat
  omega

/-- Witness for the amended C1 theorem at a 3-participant session. -/
theorem skip_quorum_threshold_amended_witness :
    3 ≤ w1Participants.length ∧
    thresholdReached [c1Vote] "song1" w1Participants = false :=
  ⟨by decide, skip_quorum_threshold_amended.2.2.2 c1Vote "song1" w1Participants (by decide)⟩

/-! ## C4: idempotent song_changed handling -/

/-- C4: a `song_changed` broadcast whose `song_index` equals the locally held
`current_song_index` leaves local state untouched and issues no reloads. -/
theorem onSongChanged_idempotent (st : LocalState) (db : DB) (sessionId : Uid)
    (data : SongChangedEvent) (s : Session)
    (hs : st.session = some s) (hidx : s.current_song_index = some data.song_index) :
    onSongChanged st db sessionId data = (st, []) := by
  unfold onSongChanged
  simp [hs, hidx]

/-- Witness for C4 at a concrete state and event. -/
theorem onSongChanged_idempotent_witness :
    onSongChanged w4St w4Db "s1" w4Ev = (w4St, []) :=
  onSongChanged_idempotent w4St w4Db "s1" w4Ev w4Session rfl rfl

/-! ## C5: playback clock formula -/

/-- C5: with a non-null start timestamp the playback clock computes exactly
`max(0, floor((now - startedAt) / 1000))` (the spec's formula, floor over the
rationals), and the result is never negative, even for a future `startedAt`. -/
theorem getExpectedPlaybackTime_spec (startedAt startTime now : Int) :
    getExpectedPlaybackTime (some startedAt) startTime now =
      specExpectedOffsetSeconds now startedAt ∧
    0 ≤ getExpectedPlaybackTime (some startedAt) startTime now := by
  constructor
  · show max 0 ((now - startedAt).fdiv 1000) = specExpectedOffsetSeconds now startedAt
    unfold specExpectedOffsetSeconds
    rw [fdiv_1000_eq_floor]
    norm_num
  · exact le_max_left 0 _

/-! ## C6: playback offset monotonicity and clamping -/

/-- C6 counterexample: the derived offset is not clamped above by the song's
duration; 400 elapsed seconds exceed the 360-second song. -/
theorem playback_offset_exceeds_duration :
    c6Song.duration = 360 ∧
    getExpectedPlaybackTime (some 0) 0 400000 = 400 ∧
    ¬ getExpectedPlaybackTime (some 0) 0 400000 ≤ (c6Song.duration : Int) := by
  refine ⟨rfl, by decide, by decide⟩

/-- C6 (amended): for a fixed start timestamp the derived playback offset is
monotone non-decreasing in wall-clock time and clamped below at 0; it is not
clamped above by the song duration. -/
theorem playback_offset_monotone_nonneg (startedAt startTime now₁ now₂ : Int)
    (h : now₁ ≤ now₂) :
    getExpectedPlaybackTime (some startedAt) startTime now₁ ≤
      getExpectedPlaybackTime (some startedAt) startTime now₂ ∧
    0 ≤ getExpectedPlaybackTime (some startedAt) startTime now₁ := by
  constructor
  · show max 0 ((now₁ - startedAt).fdiv 1000) ≤ max 0 ((now₂ - startedAt).fdiv 1000)
    apply max_le_max le_rfl
    rw [Int.fdiv_eq_ediv _ (by norm_num), Int.fdiv_eq_ediv _ (by norm_num)]
    exact Int.ediv_le_ediv (by norm_num) (by omega)
  · exact le_max_left 0 _

/-- Witness for the amended C6 theorem at concrete times. -/
theorem playback_offset_monotone_nonneg_witness :
    getExpectedPlaybackTime (some 0) 0 5000 ≤ getExpectedPlaybackTime (some 0) 0 9000 ∧
    0 ≤ getExpectedPlaybackTime (some 0) 0 5000 :=
  playback_offset_monotone_nonneg 0 0 5000 9000 (by decide)

/-! ## C10: nextSong is a no-op without a session or current index -/

/-- C10: `nextSong` returns without store writes, state changes or broadcasts
when the local session is null or its `current_song_index` is null. -/
theorem nextSong_noop_of_no_current (now : Int) (st : LocalState) (db : DB)
    (h : st.session.bind Session.current_song_index = none) :
    nextSong now st db = .ok (st, db, []) := by
  unfold nextSong
  match hs : st.session with
  | none => simp
  | some session =>
    rw [hs] at h
    simp only [Option.some_bind] at h
    simp [h]

/-- Witness for C10 at a state with no session. -/
theorem nextSong_noop_witness :
    nextSong 0 w10St w10Db = .ok (w10St, w10Db, []) :=
  nextSong_noop_of_no_current 0 w10St w10Db rfl

/-! ## C3: duplicate score rows -/

/-- A nonempty filter forces a matching `any`. -/
theorem any_of_one_le_filter_length {p : α → Bool} {l : List α}
    (h : 1 ≤ (l.filter p).length) : l.any p = true := by
  rw [List.any_eq_true]
  have h0 : l.filter p ≠ [] := by
    intro hnil
    rw [hnil] at h
    simp at h
  obtain ⟨r, hr⟩ := List.exists_mem_of_ne_nil _ h0
  rw [List.mem_filter] at hr
  exact ⟨r, hr.1, hr.2⟩

/-- C3 counterexample: with p1's score for song1 already stored, a second
`addScore` for the same (song, participant) pair is rejected by the
uniqueness constraint — exactly one row remains — but `addScore` rethrows the
rejection to its caller instead of swallowing it. -/
theorem addScore_throws_on_duplicate :
    c3Db.scoreKeyCount "song1" "p1" = 1 ∧
    addScore c3St c3Db c3Score2 = .error .uniqueViolation :=
  ⟨rfl, rfl⟩

/-- C3 (amended): a second score for the same (song, participant) pair is
rejected by the store's uniqueness constraint, so the store keeps its single
row, and `addScore` propagates the rejection to its caller as an error. -/
theorem addScore_duplicate_unique_and_propagates (st : LocalState) (db : DB)
    (score : Score)
    (h : 1 ≤ db.scoreKeyCount score.song_id score.participant_id) :
    db.insertScore score = .error .uniqueViolation ∧
    addScore st db score = .error .uniqueViolation := by
  have hany : (db.scores.any fun r =>
      r.song_id == score.song_id && r.participant_id == score.participant_id) = true := by
    unfold DB.scoreKeyCount at h
    exact any_of_one_le_filter_length h
  constructor
  · simp [DB.insertScore, hany]
  · simp [addScore, DB.insertScore, hany]

/-- Witness for the amended C3 theorem at the concrete duplicate insert. -/
theorem addScore_duplicate_unique_and_propagates_witness :
    1 ≤ c3Db.scoreKeyCount "song1" "p1" ∧
    addScore c3St c3Db c3Score2 = .error .uniqueViolation :=
  ⟨by decide, (addScore_duplicate_unique_and_propagates c3St c3Db c3Score2 (by decide)).2⟩

/-! ## C7: duplicate skip votes are a benign no-op -/

/-- C7: when a SkipVote row for the (session, song, participant) key already
persists — however stale the caller's pre-check read `checkDb` is — the
`addSkipVote` action completes without an error, leaves local state and the
store untouched, and publishes nothing, so exactly the existing row persists. -/
theorem addSkipVote_duplicate_benign (checkDb db : DB) (st : LocalState)
    (songId newId : Uid) (sess : Session) (p : Participant)
    (hs : st.session = some sess) (hp : st.currentParticipant = some p)
    (hdup : 1 ≤ db.skipVoteKeyCount sess.id songId p.id) :
    addSkipVote checkDb st db songId newId = .ok (st, db, []) := by
  have hany : (db.skip_votes.any fun r =>
      r.session_id == sess.id && r.song_id == songId &&
      r.participant_id == p.id) = true := by
    unfold DB.skipVoteKeyCount at hdup
    exact any_of_one_le_filter_length hdup
  unfold addSkipVote
  rw [hs, hp]
  by_cases hc : 0 < (checkDb.skip_votes.filter fun v =>
      v.session_id == sess.id && v.song_id == songId &&
      v.participant_id == p.id).length
  · simp [hc]
  · simp [hc, DB.insertSkipVote, hany]

/-- Witness for C7: a stale pre-check read races with the already persisted
vote; the duplicate-key rejection is swallowed and one row persists. -/
theorem addSkipVote_duplicate_benign_witness :
    addSkipVote w7CheckDb w7St w7Db "song1" "v2" = .ok (w7St, w7Db, []) :=
  addSkipVote_duplicate_benign w7CheckDb w7Db w7St "song1" "v2" w7Session w7P rfl rfl
    (by decide)

/-! ## C2: infinite mode is ignored at the end of the queue -/

/-- C2: at the end of the queue `nextSong` transitions the session to
`finished` even though `infinite_mode` is enabled; no song-source request to
top the queue up to `min_queue_size` exists anywhere in the advance path. -/
theorem nextSong_finishes_despite_infinite_mode :
    c2Session.infinite_mode = true ∧
    c2St.songs.length = 1 ∧ c2Session.current_song_index = some 0 ∧
    (nextSong 5000 c2St c2Db).map (fun r => r.1.session.map Session.status) =
      .ok (some SessionStatus.finished) :=
  ⟨rfl, rfl, rfl, rfl⟩

/-! ## C9: add-song rejection rules -/

/-- C9: with a session and participant present, a search candidate is
accepted exactly when it lasts at most 360 seconds and no queued song shares
its source id; any rejected candidate leaves the store's song table
untouched. -/
theorem addSong_accepted_iff (st : LocalState) (db : DB) (newId : Uid)
    (song : SearchResult) (sess : Session) (p : Participant)
    (hs : st.session = some sess) (hp : st.currentParticipant = some p) :
    ((∃ row, dialogHandleAddSong st newId song = .accepted row) ↔
      song.duration ≤ 360 ∧ ∀ s ∈ st.songs, s.source_id ≠ song.id) ∧
    ((360 < song.duration ∨ ∃ s ∈ st.songs, s.source_id = song.id) →
      applyAddSongOutcome db (dialogHandleAddSong st newId song) = db) := by
  unfold dialogHandleAddSong pageHandleAddSong
  rw [hs, hp]
  by_cases hd : 360 < song.duration
  · rw [if_pos hd]
    refine ⟨?_, fun _ => rfl⟩
    simp only [reduceCtorEq, exists_false, false_iff, not_and]
    intro hle
    omega
  · rw [if_neg hd]
    simp only []
    by_cases hdup : (st.songs.any fun s => s.source_id == song.id) = true
    · rw [if_pos hdup]
      rw [List.any_eq_true] at hdup
      obtain ⟨s, hsmem, hseq⟩ := hdup
      rw [beq_iff_eq] at hseq
      refine ⟨?_, fun _ => rfl⟩
      simp only [reduceCtorEq, exists_false, false_iff, not_and]
      intro _ hall
      exact hall s hsmem hseq
    · rw [if_neg hdup]
      have hnodup : ∀ s ∈ st.songs, s.source_id ≠ song.id := by
        intro s hsmem hseq
        exact hdup (List.any_eq_true.mpr ⟨s, hsmem, by rw [beq_iff_eq]; exact hseq⟩)
      refine ⟨⟨fun _ => ⟨by omega, hnodup⟩, fun _ => ⟨_, rfl⟩⟩, ?_⟩
      intro hbad
      rcases hbad with hbad | ⟨s, hsmem, hseq⟩
      · omega
      · exact absurd hseq (hnodup s hsmem)

/-- Witness for C9: a 180-second, non-duplicate candidate is accepted. -/
theorem addSong_accepted_iff_witness :
    ∃ row, dialogHandleAddSong w9St "n1" w9Cand = .accepted row :=
  (addSong_accepted_iff w9St w9Db "n1" w9Cand w9Session w9P rfl rfl).1.mpr
    ⟨by decide, by decide⟩

/-! ## C8: starting the session -/

/-- Position updates never touch the sessions table. -/
theorem foldl_setSongPosition_sessions (l : List (Nat × Song)) (db : DB) :
    (l.foldl (fun acc p => setSongPosition acc p.2.id p.1) db).sessions = db.sessions := by
  induction l generalizing db with
  | nil => rfl
  | cons a t ih =>
    rw [List.foldl_cons, ih]
    rfl

/-- Reordering the queue never touches the sessions table. -/
theorem reorderSongs_sessions (st : LocalState) (db : DB) (songs : List Song) :
    (reorderSongs st db songs).2.sessions = db.sessions :=
  foldl_setSongPosition_sessions songs.enum db

/-- When the patch does not finish the session, `updateSession` succeeds with
the local session set to the patched store row. -/
theorem updateSession_ok_parts (now : Int) (st : LocalState) (db : DB)
    (u : SessionUpdates) (sess dbRow : Session) (hs : st.session = some sess)
    (hrow : db.findSession sess.id = some dbRow)
    (hnf : u.status ≠ some SessionStatus.finished) :
    ∃ db2 msgs, updateSession now st db u =
      .ok ({ st with session := some (applySessionUpdates dbRow u now) }, db2, msgs) := by
  by_cases hr : st.realtime = true
  · simp only [updateSession, DB.updateSessionRow, hs, hrow, hr, if_true, if_neg hnf]
    exact ⟨_, _, rfl⟩
  · simp only [updateSession, DB.updateSessionRow, hs, hrow, if_neg hr]
    exact ⟨_, _, rfl⟩

/-- C8: the waiting-to-playing start action is a no-op for a non-host caller
or an empty queue; for the host of a waiting session with a nonempty queue it
sets `current_song_index = 0` and `current_song_started_at = now` after
replacing the queue with a Fisher–Yates shuffle that is a permutation of the
existing songs. -/
theorem start_session_waiting_to_playing :
    (∀ (now : Int) (rand : Nat → Nat) (st : LocalState) (db : DB),
      isHost st = false ∨ st.songs = [] →
      handleStartSession now rand st db = (st, db, [])) ∧
    (∀ (now : Int) (rand : Nat → Nat) (st : LocalState) (db : DB)
        (sess dbRow : Session) (p : Participant),
      st.session = some sess → sess.status = SessionStatus.waiting →
      st.currentParticipant = some p → p.is_host = true → st.songs ≠ [] →
      db.findSession sess.id = some dbRow →
      ((handleStartSession now rand st db).1.session.map Session.status =
          some SessionStatus.playing) ∧
      ((handleStartSession now rand st db).1.session.map Session.current_song_index =
          some (some 0)) ∧
      ((handleStartSession now rand st db).1.session.map Session.current_song_started_at =
          some (some now)) ∧
      ((handleStartSession now rand st db).1.songs).Perm st.songs) := by
  constructor
  · intro now rand st db h
    unfold handleStartSession
    rw [if_pos]
    rcases h with h | h
    · right; left; exact h
    · right; right; rw [h]; rfl
  · intro now rand st db sess dbRow p hs hw hp hhost hne hrow
    have hguard : ¬ (st.session.isNone = true ∨ isHost st = false ∨ st.songs.length = 0) := by
      push_neg
      refine ⟨?_, ?_, ?_⟩
      · rw [hs]; simp
      · simp [isHost, hp, hhost]
      · simp [hne]
    have hshuffle : shuffleQueue rand st db =
        reorderSongs st db (fisherYates rand st.songs) := by
      simp only [shuffleQueue, hs, hw]
      rw [if_neg (by decide)]
    have hrow2 : ((reorderSongs st db (fisherYates rand st.songs)).2).findSession sess.id =
        some dbRow := by
      unfold DB.findSession at hrow ⊢
      rw [reorderSongs_sessions]
      exact hrow
    obtain ⟨db2, msgs, hupd⟩ := updateSession_ok_parts now
      (reorderSongs st db (fisherYates rand st.songs)).1
      (reorderSongs st db (fisherYates rand st.songs)).2
      ⟨some SessionStatus.playing, some 0, some now⟩ sess dbRow hs hrow2 (by simp)
    have hfinal : handleStartSession now rand st db =
        ({ (reorderSongs st db (fisherYates rand st.songs)).1 with
            session := some (applySessionUpdates dbRow
              ⟨some SessionStatus.playing, some 0, some now⟩ now) },
         db2, msgs) := by
      unfold handleStartSession
      rw [if_neg hguard]
      simp only [hshuffle]
      rw [hupd]
    rw [hfinal]
    exact ⟨rfl, rfl, rfl, fisherYates_perm rand st.songs⟩

/-- Witness for C8: the no-op guard for a non-host state and the full start
transition for a concrete host state. -/
theorem start_session_waiting_to_playing_witness :
    handleStartSession 0 (fun _ => 0) w10St w10Db = (w10St, w10Db, []) ∧
    (((handleStartSession 7 (fun _ => 0) w8St w8Db).1.session.map Session.status =
        some SessionStatus.playing) ∧
      ((handleStartSession 7 (fun _ => 0) w8St w8Db).1.session.map
          Session.current_song_index = some (some 0)) ∧
      ((handleStartSession 7 (fun _ => 0) w8St w8Db).1.session.map
          Session.current_song_started_at = some (some 7)) ∧
      ((handleStartSession 7 (fun _ => 0) w8St w8Db).1.songs).Perm w8St.songs) :=
  ⟨start_session_waiting_to_playing.1 0 (fun _ => 0) w10St w10Db (Or.inl rfl),
   start_session_waiting_to_playing.2 7 (fun _ => 0) w8St w8Db w8Session w8Session w8P
     rfl rfl rfl rfl (by decide) rfl⟩

end BeatBattle
